import Mathlib

/-!
A shallow embedding of the rule-based chatbot core in `app.py`
(intent detection, entity extraction, per-intent handlers, dispatcher,
and the blank-message pre-check of the `/chat` route), together with
theorems settling the specification claims about it.

Modelling conventions:
* Python strings are Lean `String`s; all scanning happens on `String.data`
  (a `List Char`), which reduces structurally in the kernel.
* Python `sub in s` (substring containment) is `pyIn sub s`, list-infix
  containment on the character lists.
* `str.lower()` is modelled as a character-wise ASCII lowering
  (`Char.toLower`); every string the program matches against is ASCII.
* Python dicts with a fixed key set (`FAQ_RESPONSES`, `MOCK_ORDERS`) are
  association lists queried with `List.lookup`; the entity dict is a
  structure of `Option` fields (a missing key is `none`).
* Python truthiness on strings (`if not order_id`, `if status`) is made
  explicit as an emptiness test, so the embedding is faithful to the code
  even on empty-string values.
-/

/-- Python `message.lower()` (ASCII case mapping, character-wise). -/
def pylower (s : String) : String := String.mk (s.data.map Char.toLower)

/-- Python substring containment `sub in s`. -/
def pyIn (sub s : String) : Prop := sub.data <:+: s.data

instance (sub s : String) : Decidable (pyIn sub s) := List.decidableInfix _ _

/-- Python `str.strip()` (remove leading and trailing whitespace). -/
def pystrip (s : String) : String :=
  String.mk (((s.data.dropWhile Char.isWhitespace).reverse.dropWhile Char.isWhitespace).reverse)

/-- The `FAQ_RESPONSES` dict of `app.py`. -/
def FAQ_RESPONSES : List (String × String) :=
  [("working hours", "Our customer support is available 24/7."),
   ("return policy", "You can return any product within 30 days of delivery."),
   ("reset password", "To reset your password, go to Settings > Account > Reset Password."),
   ("contact", "You can contact us at support@example.com or call +1-234-567-890.")]

/-- The `MOCK_ORDERS` dict of `app.py`. -/
def MOCK_ORDERS : List (String × String) :=
  [("1234", "Delivered on 25-11-2025"),
   ("5678", "Out for delivery. Expected today."),
   ("9999", "Order confirmed. Preparing for dispatch.")]

/-- The entity dict attached to a detection result: an optional `keyword`
(for FAQ) and an optional `order_id` (for order tracking); `⟨none, none⟩`
is the empty dict `{}`. -/
structure Entities where
  keyword : Option String
  order_id : Option String
deriving DecidableEq

/-- Accumulating scanner behind `re.findall(r"\d+", message)`: collects the
maximal runs of decimal-digit characters, left to right. `cur` is the
current run, reversed. -/
def digitRunsAux : List Char → List Char → List (List Char)
  | [], cur => if cur = [] then [] else [cur.reverse]
  | c :: cs, cur =>
    if c.isDigit then digitRunsAux cs (c :: cur)
    else if cur = [] then digitRunsAux cs []
    else cur.reverse :: digitRunsAux cs []

/-- Python `re.findall(r"\d+", s)`: all maximal digit runs of `s`, in order. -/
def findall_digits (s : String) : List String :=
  (digitRunsAux s.data []).map String.mk

/-- `extract_order_id` of `app.py`: the first digit run becomes the
`order_id` entity; no digit run yields the empty dict. -/
def extract_order_id (message : String) : Entities :=
  match findall_digits message with
  | [] => ⟨none, none⟩
  | n :: _ => ⟨none, some n⟩

/-- The ordered FAQ trigger keyword list of `detect_intent`. -/
def faq_keywords : List String :=
  ["working hours", "timings", "return policy", "refund", "reset password",
   "forgot password", "contact", "email", "phone"]

/-- `detect_intent` of `app.py`: rule-based intent detection returning the
intent tag (a string, as in the code) and the entity dict. -/
def detect_intent (message : String) : String × Entities :=
  let msg := pylower message
  if pyIn "track" msg ∧ pyIn "order" msg then
    ("track_order", extract_order_id msg)
  else
    match faq_keywords.find? (fun kw => decide (pyIn kw msg)) with
    | some kw => ("faq", ⟨some kw, none⟩)
    | none =>
      if ["hi", "hello", "hey"].any (fun word => decide (pyIn word msg)) then
        ("greeting", ⟨none, none⟩)
      else
        ("unknown", ⟨none, none⟩)

/-- `handle_faq` of `app.py`: normalize the keyword to a canonical FAQ key
by substring groups, then look it up; Python's `if answer:` truthiness is
the explicit emptiness test. -/
def handle_faq (entities : Entities) : String :=
  let keyword := pylower (entities.keyword.getD "")
  let key :=
    if pyIn "timings" keyword ∨ pyIn "working hours" keyword then "working hours"
    else if pyIn "return policy" keyword ∨ pyIn "refund" keyword then "return policy"
    else if pyIn "reset password" keyword ∨ pyIn "forgot password" keyword then "reset password"
    else if pyIn "contact" keyword ∨ pyIn "email" keyword ∨ pyIn "phone" keyword then "contact"
    else keyword
  match List.lookup key FAQ_RESPONSES with
  | some answer =>
    if answer = "" then "I'm sorry, I don't have information about that yet." else answer
  | none => "I'm sorry, I don't have information about that yet."

/-- `handle_track_order` of `app.py`: Python's `if not order_id:` is true
for a missing key and for an empty string, hence the explicit split. -/
def handle_track_order (entities : Entities) : String :=
  match entities.order_id with
  | none => "Please provide your order ID to track your order."
  | some order_id =>
    if order_id = "" then "Please provide your order ID to track your order."
    else
      match List.lookup order_id MOCK_ORDERS with
      | some status =>
        if status = "" then
          "I could not find any details for order ID " ++ order_id ++
            ". Please check the ID and try again."
        else "Your order " ++ order_id ++ " status: " ++ status
      | none =>
        "I could not find any details for order ID " ++ order_id ++
          ". Please check the ID and try again."

/-- `handle_greeting` of `app.py`. -/
def handle_greeting : String :=
  "Hello! 👋 I am your AI support assistant. How can I help you today?"

/-- `handle_ai_fallback` of `app.py` (the three adjacent Python literals
concatenate to this one string). -/
def handle_ai_fallback (message : String) : String :=
  "I'm not entirely sure about that yet 🤔, but I'll note this question for improvement. Meanwhile, could you rephrase or ask about orders, returns, or account support?"

/-- `generate_bot_response` of `app.py`: dispatch on the intent tag string,
with the final catch-all else branch of the code. -/
def generate_bot_response (user_message : String) : String :=
  let r := detect_intent user_message
  if r.1 = "faq" then handle_faq r.2
  else if r.1 = "track_order" then handle_track_order r.2
  else if r.1 = "greeting" then handle_greeting
  else if r.1 = "unknown" then handle_ai_fallback user_message
  else "Sorry, I couldn't understand that. Can you please rephrase?"

/-- The body of the `/chat` route, abstracted over the core it guards:
blank messages short-circuit to a fixed prompt before the core runs. -/
def chatWith (core : String → String) (user_message : String) : String :=
  if pystrip user_message = "" then "Please type a message so I can help you."
  else core user_message

/-- The `/chat` route of `app.py` (reply computation only; JSON plumbing
is outside the core). -/
def chat : String → String := chatWith generate_bot_response

example : detect_intent "please track my order 1234" = ("track_order", ⟨none, some "1234"⟩) := by
  decide

example : generate_bot_response "What are your working hours?" =
    "Our customer support is available 24/7." := by decide

example : generate_bot_response "hello there" = handle_greeting := by decide

example : chat "   " = "Please type a message so I can help you." := by decide

example : extract_order_id "order 00042 please" = ⟨none, some "00042"⟩ := by decide

/-! ### Case characterizations of `detect_intent` -/

theorem detect_intent_track (m : String)
    (h : pyIn "track" (pylower m) ∧ pyIn "order" (pylower m)) :
    detect_intent m = ("track_order", extract_order_id (pylower m)) := by
  simp only [detect_intent]
  rw [if_pos h]

theorem detect_intent_faq (m kw : String)
    (hno : ¬(pyIn "track" (pylower m) ∧ pyIn "order" (pylower m)))
    (hf : faq_keywords.find? (fun kw => decide (pyIn kw (pylower m))) = some kw) :
    detect_intent m = ("faq", ⟨some kw, none⟩) := by
  simp only [detect_intent]
  rw [if_neg hno, hf]

theorem detect_intent_greeting (m : String)
    (hno : ¬(pyIn "track" (pylower m) ∧ pyIn "order" (pylower m)))
    (hfn : faq_keywords.find? (fun kw => decide (pyIn kw (pylower m))) = none)
    (hany : (["hi", "hello", "hey"].any (fun word => decide (pyIn word (pylower m)))) = true) :
    detect_intent m = ("greeting", ⟨none, none⟩) := by
  simp only [detect_intent]
  rw [if_neg hno, hfn]
  exact if_pos hany

theorem detect_intent_unknown (m : String)
    (hno : ¬(pyIn "track" (pylower m) ∧ pyIn "order" (pylower m)))
    (hfn : faq_keywords.find? (fun kw => decide (pyIn kw (pylower m))) = none)
    (hany : (["hi", "hello", "hey"].any (fun word => decide (pyIn word (pylower m)))) = false) :
    detect_intent m = ("unknown", ⟨none, none⟩) := by
  simp only [detect_intent]
  rw [if_neg hno, hfn]
  exact if_neg (by simp [hany])

theorem extract_order_id_keyword_none (s : String) :
    (extract_order_id s).keyword = none := by
  simp only [extract_order_id]
  split <;> rfl

/-- Every run of `detect_intent` lands in exactly one of the four rule
branches, with the entity dict each branch builds. -/
theorem detect_intent_shape (m : String) :
    (detect_intent m = ("track_order", extract_order_id (pylower m)) ∧
      pyIn "track" (pylower m) ∧ pyIn "order" (pylower m)) ∨
    (∃ kw, detect_intent m = ("faq", ⟨some kw, none⟩) ∧ kw ∈ faq_keywords) ∨
    detect_intent m = ("greeting", ⟨none, none⟩) ∨
    detect_intent m = ("unknown", ⟨none, none⟩) := by
  by_cases h : pyIn "track" (pylower m) ∧ pyIn "order" (pylower m)
  · exact Or.inl ⟨detect_intent_track m h, h⟩
  · cases hf : faq_keywords.find? (fun kw => decide (pyIn kw (pylower m))) with
    | some kw =>
      exact Or.inr (Or.inl ⟨kw, detect_intent_faq m kw h hf, List.mem_of_find?_eq_some hf⟩)
    | none =>
      cases hany : (["hi", "hello", "hey"].any (fun word => decide (pyIn word (pylower m)))) with
      | true => exact Or.inr (Or.inr (Or.inl (detect_intent_greeting m h hf hany)))
      | false => exact Or.inr (Or.inr (Or.inr (detect_intent_unknown m h hf hany)))

/-! ### Dispatch characterizations of `generate_bot_response` -/

theorem gbr_faq (m : String) (e : Entities) (hd : detect_intent m = ("faq", e)) :
    generate_bot_response m = handle_faq e := by
  simp only [generate_bot_response, hd]
  rfl

theorem gbr_track (m : String) (e : Entities) (hd : detect_intent m = ("track_order", e)) :
    generate_bot_response m = handle_track_order e := by
  simp only [generate_bot_response, hd]
  rfl

theorem gbr_greeting (m : String) (e : Entities) (hd : detect_intent m = ("greeting", e)) :
    generate_bot_response m = handle_greeting := by
  simp only [generate_bot_response, hd]
  rfl

theorem gbr_unknown (m : String) (e : Entities) (hd : detect_intent m = ("unknown", e)) :
    generate_bot_response m = handle_ai_fallback m := by
  simp only [generate_bot_response, hd]
  rfl

/-! ### String head helpers (to separate templated replies) -/

theorem data_head_ne {s t : String} (h : s.data.head? ≠ t.data.head?) : s ≠ t :=
  fun he => h (by rw [he])

theorem head_append (c : Char) (p x : String) (hp : p.data.head? = some c) :
    (p ++ x).data.head? = some c := by
  rw [String.data_append]
  cases hpd : p.data with
  | nil => rw [hpd] at hp; simp at hp
  | cons y ys =>
    rw [hpd] at hp
    rw [List.cons_append, List.head?_cons]
    exact hp

theorem your_order_head (id st : String) :
    ("Your order " ++ id ++ " status: " ++ st).data.head? = some 'Y' :=
  head_append 'Y' _ st (head_append 'Y' _ " status: " (head_append 'Y' "Your order " id rfl))

theorem notfound_head (id : String) :
    ("I could not find any details for order ID " ++ id ++
      ". Please check the ID and try again.").data.head? = some 'I' :=
  head_append 'I' _ _ (head_append 'I' "I could not find any details for order ID " id rfl)

/-! ### Table lookups produce only the stored values -/

theorem faq_lookup_values (k a : String) (h : List.lookup k FAQ_RESPONSES = some a) :
    a = "Our customer support is available 24/7." ∨
    a = "You can return any product within 30 days of delivery." ∨
    a = "To reset your password, go to Settings > Account > Reset Password." ∨
    a = "You can contact us at support@example.com or call +1-234-567-890." := by
  simp only [FAQ_RESPONSES, List.lookup] at h
  split at h
  · simp_all
  · split at h
    · simp_all
    · split at h
      · simp_all
      · split at h
        · simp_all
        · simp_all

theorem order_lookup_values (k a : String) (h : List.lookup k MOCK_ORDERS = some a) :
    a = "Delivered on 25-11-2025" ∨
    a = "Out for delivery. Expected today." ∨
    a = "Order confirmed. Preparing for dispatch." := by
  simp only [MOCK_ORDERS, List.lookup] at h
  split at h
  · simp_all
  · split at h
    · simp_all
    · split at h
      · simp_all
      · simp_all

/-! ### `find?` returns the first element of the list satisfying the predicate -/

theorem find?_of_first_index {α : Type} (p : α → Bool) :
    ∀ (l : List α) (i : Nat) (a : α), l.get? i = some a → p a = true →
      (∀ j, j < i → ∀ b, l.get? j = some b → p b = false) → l.find? p = some a := by
  intro l
  induction l with
  | nil => intro i a hget _ _; simp at hget
  | cons x xs ih =>
    intro i a hget hp hfirst
    cases i with
    | zero =>
      rw [List.get?_cons_zero] at hget
      cases hget
      exact List.find?_cons_of_pos _ hp
    | succ n =>
      have hx : p x = false := hfirst 0 (Nat.succ_pos n) x rfl
      rw [List.find?_cons_of_neg _ (by simp [hx])]
      rw [List.get?_cons_succ] at hget
      exact ih n a hget hp (fun j hj b hb => hfirst (j + 1) (Nat.succ_lt_succ hj) b hb)

/-! ### The digit-run scanner: skipping, consuming, stopping -/

theorem digitRunsAux_skip (a : List Char) (r : List Char)
    (ha : ∀ c ∈ a, c.isDigit = false) :
    digitRunsAux (a ++ r) [] = digitRunsAux r [] := by
  induction a with
  | nil => rfl
  | cons c a2 ih =>
    have hc : c.isDigit = false := ha c (List.mem_cons_self c a2)
    rw [List.cons_append]
    show digitRunsAux (c :: (a2 ++ r)) [] = _
    simp only [digitRunsAux]
    rw [if_neg (by simp [hc]), if_pos trivial]
    exact ih (fun x hx => ha x (List.mem_cons_of_mem c hx))

theorem digitRunsAux_digits (d : List Char) :
    ∀ (r : List Char) (cur : List Char), (∀ c ∈ d, c.isDigit = true) →
      digitRunsAux (d ++ r) cur = digitRunsAux r (d.reverse ++ cur) := by
  induction d with
  | nil => intro r cur _; rfl
  | cons c d2 ih =>
    intro r cur hd
    have hc : c.isDigit = true := hd c (List.mem_cons_self c d2)
    rw [List.cons_append]
    show digitRunsAux (c :: (d2 ++ r)) cur = _
    simp only [digitRunsAux]
    rw [if_pos hc, ih r (c :: cur) (fun x hx => hd x (List.mem_cons_of_mem c hx))]
    simp [List.append_assoc]

theorem digitRunsAux_stop (b : List Char) (cur : List Char) (hcur : cur ≠ [])
    (hb : ∀ c ∈ b.take 1, c.isDigit = false) :
    ∃ rest, digitRunsAux b cur = cur.reverse :: rest := by
  cases b with
  | nil =>
    refine ⟨[], ?_⟩
    simp only [digitRunsAux]
    rw [if_neg hcur]
  | cons c cs =>
    have hc : c.isDigit = false := hb c (by simp)
    refine ⟨digitRunsAux cs [], ?_⟩
    simp only [digitRunsAux]
    rw [if_neg (by simp [hc]), if_neg hcur]

/-- If the character list splits as non-digits, a nonempty digit run, and a
tail not starting with a digit, the scanner reports that run first. -/
theorem digitRunsAux_first_run (a d b : List Char)
    (ha : ∀ c ∈ a, c.isDigit = false) (hd : d ≠ [])
    (hdd : ∀ c ∈ d, c.isDigit = true) (hb : ∀ c ∈ b.take 1, c.isDigit = false) :
    ∃ rest, digitRunsAux (a ++ d ++ b) [] = d :: rest := by
  rw [List.append_assoc, digitRunsAux_skip a _ ha, digitRunsAux_digits d b [] hdd]
  obtain ⟨rest, hr⟩ := digitRunsAux_stop b (d.reverse ++ []) (by simp [hd]) hb
  refine ⟨rest, ?_⟩
  rw [hr]
  simp

/-! ### No handler produces the dispatcher's catch-all string -/

theorem handle_faq_ne_sorry (e : Entities) :
    handle_faq e ≠ "Sorry, I couldn't understand that. Can you please rephrase?" := by
  simp only [handle_faq]
  split
  · rename_i answer h
    split
    · decide
    · rcases faq_lookup_values _ _ h with h4 | h4 | h4 | h4 <;> rw [h4] <;> decide
  · decide

theorem handle_track_order_ne_sorry (e : Entities) :
    handle_track_order e ≠ "Sorry, I couldn't understand that. Can you please rephrase?" := by
  simp only [handle_track_order]
  split
  · decide
  · split
    · decide
    · split
      · split
        · exact data_head_ne (by rw [notfound_head]; decide)
        · exact data_head_ne (by rw [your_order_head]; decide)
      · exact data_head_ne (by rw [notfound_head]; decide)

/-- C1: For every message the dispatcher `generate_bot_response` executes
exactly one intent handler and returns its string: the intent tag produced
by `detect_intent` is always one of the four handled tags (`faq`,
`track_order`, `greeting`, `unknown`), and the final else branch of the
dispatcher (the "Sorry, I couldn't understand that" string) is unreachable
for every input message. -/
theorem generate_bot_response_exhaustive_dispatch (m : String) :
    (((detect_intent m).1 = "faq" ∧
        generate_bot_response m = handle_faq (detect_intent m).2) ∨
     ((detect_intent m).1 = "track_order" ∧
        generate_bot_response m = handle_track_order (detect_intent m).2) ∨
     ((detect_intent m).1 = "greeting" ∧ generate_bot_response m = handle_greeting) ∨
     ((detect_intent m).1 = "unknown" ∧ generate_bot_response m = handle_ai_fallback m)) ∧
    generate_bot_response m ≠ "Sorry, I couldn't understand that. Can you please rephrase?" := by
  rcases detect_intent_shape m with ⟨hd, -, -⟩ | ⟨kw, hd, -⟩ | hd | hd
  · have hg := gbr_track m _ hd
    refine ⟨Or.inr (Or.inl ⟨by rw [hd], by rw [hd]; exact hg⟩), ?_⟩
    rw [hg]
    exact handle_track_order_ne_sorry _
  · have hg := gbr_faq m _ hd
    refine ⟨Or.inl ⟨by rw [hd], by rw [hd]; exact hg⟩, ?_⟩
    rw [hg]
    exact handle_faq_ne_sorry _
  · have hg := gbr_greeting m _ hd
    refine ⟨Or.inr (Or.inr (Or.inl ⟨by rw [hd], hg⟩)), ?_⟩
    rw [hg]
    decide
  · have hg := gbr_unknown m _ hd
    refine ⟨Or.inr (Or.inr (Or.inr ⟨by rw [hd], hg⟩)), ?_⟩
    rw [hg]
    simp only [handle_ai_fallback]
    decide

/-- C2: Any message whose lowercased form contains both the substring
"track" and the substring "order" is classified as `track_order`,
regardless of any other content, and its entities are the result of the
order-id extractor on the lowercased message. -/
theorem detect_intent_track_order_rule (m : String)
    (h1 : pyIn "track" (pylower m)) (h2 : pyIn "order" (pylower m)) :
    detect_intent m = ("track_order", extract_order_id (pylower m)) :=
  detect_intent_track m ⟨h1, h2⟩

/-- Witness for C2 at a message that also contains a FAQ keyword
("refund") and a greeting word ("hello"): the track+order rule wins. -/
theorem detect_intent_track_order_rule_witness :
    detect_intent "hello, please TRACK my refund ORDER 0042" =
      ("track_order", ⟨none, some "0042"⟩) := by
  have h := detect_intent_track_order_rule "hello, please TRACK my refund ORDER 0042"
    (by decide) (by decide)
  rw [h]
  decide

/-- C3: If the lowercased message contains at least one FAQ keyword, the
message is classified as `faq` with the keyword entity equal to the first
keyword of the fixed list (in list order) contained in the message, even
when several keywords are present (stated via the first matching index). -/
theorem detect_intent_faq_first_keyword (m kw : String) (i : Nat)
    (hno : ¬(pyIn "track" (pylower m) ∧ pyIn "order" (pylower m)))
    (hget : faq_keywords.get? i = some kw)
    (hkw : pyIn kw (pylower m))
    (hfirst : ∀ j, j < i → ∀ k, faq_keywords.get? j = some k → ¬ pyIn k (pylower m)) :
    detect_intent m = ("faq", ⟨some kw, none⟩) := by
  apply detect_intent_faq m kw hno
  exact find?_of_first_index _ faq_keywords i kw hget (by simpa using hkw)
    (fun j hj b hb => by simpa using hfirst j hj b hb)

/-- Witness for C3 at a message containing both "timings" (index 1) and
"refund" (index 3): the earlier keyword in list order is reported. -/
theorem detect_intent_faq_first_keyword_witness :
    detect_intent "what are the TIMINGS for a refund?" = ("faq", ⟨some "timings", none⟩) := by
  have hfirst : ∀ j, j < 1 → ∀ k, faq_keywords.get? j = some k →
      ¬ pyIn k (pylower "what are the TIMINGS for a refund?") := by
    intro j hj k hk
    interval_cases j
    simp only [faq_keywords, List.get?_cons_zero] at hk
    cases hk
    decide
  exact detect_intent_faq_first_keyword "what are the TIMINGS for a refund?" "timings" 1
    (by decide) (by decide) (by decide) hfirst

/-- C4: `extract_order_id` returns the first (leftmost) maximal run of
decimal digits as the `order_id` entity, kept as a string with leading
zeros preserved and later runs ignored, and returns the empty entity set
when the message has no digit. -/
theorem extract_order_id_first_digit_run (m : String) :
    (∀ a d b : List Char, m.data = a ++ d ++ b →
      (∀ c ∈ a, c.isDigit = false) → d ≠ [] → (∀ c ∈ d, c.isDigit = true) →
      (∀ c ∈ b.take 1, c.isDigit = false) →
      extract_order_id m = ⟨none, some (String.mk d)⟩) ∧
    ((∀ c ∈ m.data, c.isDigit = false) → extract_order_id m = ⟨none, none⟩) := by
  constructor
  · intro a d b hsplit ha hd hdd hb
    obtain ⟨rest, hr⟩ := digitRunsAux_first_run a d b ha hd hdd hb
    rw [← hsplit] at hr
    simp only [extract_order_id, findall_digits, hr, List.map_cons]
  · intro hnd
    have h0 : digitRunsAux (m.data ++ []) [] = digitRunsAux [] [] :=
      digitRunsAux_skip m.data [] hnd
    rw [List.append_nil] at h0
    simp only [extract_order_id, findall_digits, h0]
    rfl

/-- Witness for C4: the spec's example input with a second digit run
appended, and a digit-free input. -/
theorem extract_order_id_first_digit_run_witness :
    extract_order_id "order 00042 please" = ⟨none, some "00042"⟩ ∧
    extract_order_id "no digits at all" = ⟨none, none⟩ := by
  constructor
  · exact (extract_order_id_first_digit_run "order 00042 please").1
      "order ".data ['0', '0', '0', '4', '2'] " please".data
      (by decide) (by decide) (by decide) (by decide) (by decide)
  · exact (extract_order_id_first_digit_run "no digits at all").2 (by decide)

/-- C5: intent detection is total and exhaustive: every message gets
exactly one of the four intents with an entity set valid for it; when
neither the track rule nor a FAQ keyword matched, the result is `greeting`
with empty entities if the lowercased message contains "hi", "hello" or
"hey" as a substring, else `unknown` with empty entities. -/
theorem detect_intent_total (m : String) :
    ((∃ e, detect_intent m = ("faq", e) ∧ (∃ kw, e.keyword = some kw) ∧ e.order_id = none) ∨
     (∃ e, detect_intent m = ("track_order", e) ∧ e.keyword = none) ∨
     detect_intent m = ("greeting", ⟨none, none⟩) ∨
     detect_intent m = ("unknown", ⟨none, none⟩)) ∧
    (¬(pyIn "track" (pylower m) ∧ pyIn "order" (pylower m)) →
     (∀ kw ∈ faq_keywords, ¬ pyIn kw (pylower m)) →
     (((∃ w ∈ (["hi", "hello", "hey"] : List String), pyIn w (pylower m)) →
        detect_intent m = ("greeting", ⟨none, none⟩)) ∧
      ((∀ w ∈ (["hi", "hello", "hey"] : List String), ¬ pyIn w (pylower m)) →
        detect_intent m = ("unknown", ⟨none, none⟩)))) := by
  constructor
  · rcases detect_intent_shape m with ⟨hd, -⟩ | ⟨kw, hd, -⟩ | hd | hd
    · exact Or.inr (Or.inl ⟨extract_order_id (pylower m), hd, extract_order_id_keyword_none _⟩)
    · exact Or.inl ⟨⟨some kw, none⟩, hd, ⟨kw, rfl⟩, rfl⟩
    · exact Or.inr (Or.inr (Or.inl hd))
    · exact Or.inr (Or.inr (Or.inr hd))
  · intro hno hkw
    have hfn : faq_keywords.find? (fun kw => decide (pyIn kw (pylower m))) = none := by
      rw [List.find?_eq_none]
      intro x hx
      simpa using hkw x hx
    constructor
    · rintro ⟨w, hw, hpw⟩
      exact detect_intent_greeting m hno hfn (List.any_eq_true.mpr ⟨w, hw, by simpa using hpw⟩)
    · intro hg
      refine detect_intent_unknown m hno hfn ?_
      rw [List.any_eq_false]
      intro x hx
      simpa using hg x hx

/-- Witness for C5: "sunshine" greets via the substring "hi" (no word
boundary), and a message matching no rule is `unknown`. -/
theorem detect_intent_total_witness :
    detect_intent "sunshine" = ("greeting", ⟨none, none⟩) ∧
    detect_intent "qwerty zzz" = ("unknown", ⟨none, none⟩) := by
  constructor
  · exact ((detect_intent_total "sunshine").2 (by decide) (by decide)).1
      ⟨"hi", by decide, by decide⟩
  · exact ((detect_intent_total "qwerty zzz").2 (by decide) (by decide)).2 (by decide)

/-- C6: the FAQ handler normalizes the supplied keyword into one of the
four canonical topics via substring groups (in the code's test order),
uses any other keyword verbatim as the lookup key, returns the stored FAQ
text when the key is present and the fixed no-information message
otherwise; and the "What are your working hours?" scenario produces the
FAQ table's "working hours" entry. -/
theorem handle_faq_canonicalization :
    (∀ (e : Entities) (kw : String), e.keyword = some kw →
      ((pyIn "timings" (pylower kw) ∨ pyIn "working hours" (pylower kw)) →
        handle_faq e = "Our customer support is available 24/7.") ∧
      (¬(pyIn "timings" (pylower kw) ∨ pyIn "working hours" (pylower kw)) →
       (pyIn "return policy" (pylower kw) ∨ pyIn "refund" (pylower kw)) →
        handle_faq e = "You can return any product within 30 days of delivery.") ∧
      (¬(pyIn "timings" (pylower kw) ∨ pyIn "working hours" (pylower kw)) →
       ¬(pyIn "return policy" (pylower kw) ∨ pyIn "refund" (pylower kw)) →
       (pyIn "reset password" (pylower kw) ∨ pyIn "forgot password" (pylower kw)) →
        handle_faq e = "To reset your password, go to Settings > Account > Reset Password.") ∧
      (¬(pyIn "timings" (pylower kw) ∨ pyIn "working hours" (pylower kw)) →
       ¬(pyIn "return policy" (pylower kw) ∨ pyIn "refund" (pylower kw)) →
       ¬(pyIn "reset password" (pylower kw) ∨ pyIn "forgot password" (pylower kw)) →
       (pyIn "contact" (pylower kw) ∨ pyIn "email" (pylower kw) ∨ pyIn "phone" (pylower kw)) →
        handle_faq e = "You can contact us at support@example.com or call +1-234-567-890.") ∧
      (¬(pyIn "timings" (pylower kw) ∨ pyIn "working hours" (pylower kw)) →
       ¬(pyIn "return policy" (pylower kw) ∨ pyIn "refund" (pylower kw)) →
       ¬(pyIn "reset password" (pylower kw) ∨ pyIn "forgot password" (pylower kw)) →
       ¬(pyIn "contact" (pylower kw) ∨ pyIn "email" (pylower kw) ∨ pyIn "phone" (pylower kw)) →
        handle_faq e =
          match List.lookup (pylower kw) FAQ_RESPONSES with
          | some answer => answer
          | none => "I'm sorry, I don't have information about that yet.")) ∧
    generate_bot_response "What are your working hours?" =
      "Our customer support is available 24/7." := by
  refine ⟨?_, by decide⟩
  intro e kw hk
  refine ⟨?_, ?_, ?_, ?_, ?_⟩
  · intro h1
    simp only [handle_faq, hk, Option.getD_some]
    rw [if_pos h1]
    decide
  · intro h1 h2
    simp only [handle_faq, hk, Option.getD_some]
    rw [if_neg h1, if_pos h2]
    decide
  · intro h1 h2 h3
    simp only [handle_faq, hk, Option.getD_some]
    rw [if_neg h1, if_neg h2, if_pos h3]
    decide
  · intro h1 h2 h3 h4
    simp only [handle_faq, hk, Option.getD_some]
    rw [if_neg h1, if_neg h2, if_neg h3, if_pos h4]
    decide
  · intro h1 h2 h3 h4
    simp only [handle_faq, hk, Option.getD_some]
    rw [if_neg h1, if_neg h2, if_neg h3, if_neg h4]
    cases hl : List.lookup (pylower kw) FAQ_RESPONSES with
    | none => rfl
    | some a =>
      rcases faq_lookup_values _ _ hl with h | h | h | h <;> subst h <;> rfl

/-- Witness for C6: the detector keyword "forgot password" normalizes to
the canonical "reset password" topic. -/
theorem handle_faq_canonicalization_witness :
    handle_faq ⟨some "forgot password", none⟩ =
      "To reset your password, go to Settings > Account > Reset Password." :=
  (handle_faq_canonicalization.1 ⟨some "forgot password", none⟩ "forgot password" rfl).2.2.1
    (by decide) (by decide) (Or.inr (by decide))

/-! ### The track-order handler on a present, nonempty order id -/

theorem handle_track_order_some (id : String) (e : Entities)
    (ho : e.order_id = some id) (hid : id ≠ "") :
    handle_track_order e =
      match List.lookup id MOCK_ORDERS with
      | some status =>
        if status = "" then
          "I could not find any details for order ID " ++ id ++
            ". Please check the ID and try again."
        else "Your order " ++ id ++ " status: " ++ status
      | none =>
        "I could not find any details for order ID " ++ id ++
          ". Please check the ID and try again." := by
  simp only [handle_track_order, ho]
  rw [if_neg hid]

theorem handle_track_order_some_ne_prompt (id : String) (e : Entities)
    (ho : e.order_id = some id) (hid : id ≠ "") :
    handle_track_order e ≠ "Please provide your order ID to track your order." := by
  rw [handle_track_order_some id e ho hid]
  split
  · split
    · exact data_head_ne (by rw [notfound_head]; decide)
    · exact data_head_ne (by rw [your_order_head]; decide)
  · exact data_head_ne (by rw [notfound_head]; decide)

/-- C7 counterexample: the claim says the handler returns the
order-ID prompt exactly when the entity set carries no `order_id`; but an
entity set carrying the (Python-falsy) empty-string `order_id` also gets
the prompt, so the "exactly when" fails as stated. -/
theorem handle_track_order_prompt_on_empty_id :
    (Entities.mk none (some "")).order_id ≠ none ∧
    handle_track_order (Entities.mk none (some "")) =
      "Please provide your order ID to track your order." := by
  decide

/-- C7 (amended): the handler returns the fixed prompt exactly when the
entity set has no `order_id` or an empty-string `order_id` (Python
truthiness); otherwise it does an exact-match lookup in the order table,
formatting "Your order {id} status: {status}" on a hit and the
could-not-find message on a miss; with the two concrete scenarios of the
spec. -/
theorem handle_track_order_lookup (e : Entities) :
    (handle_track_order e = "Please provide your order ID to track your order." ↔
      (e.order_id = none ∨ e.order_id = some "")) ∧
    (∀ id, e.order_id = some id → id ≠ "" →
      handle_track_order e =
        match List.lookup id MOCK_ORDERS with
        | some status => "Your order " ++ id ++ " status: " ++ status
        | none =>
          "I could not find any details for order ID " ++ id ++
            ". Please check the ID and try again.") ∧
    generate_bot_response "please track my order 1234" =
      "Your order 1234 status: Delivered on 25-11-2025" ∧
    generate_bot_response "track order 0000" =
      "I could not find any details for order ID 0000. Please check the ID and try again." := by
  refine ⟨⟨?_, ?_⟩, ?_, by decide, by decide⟩
  · intro hp
    cases ho : e.order_id with
    | none => exact Or.inl rfl
    | some id =>
      by_cases hid : id = ""
      · exact Or.inr (by rw [hid])
      · exact absurd hp (handle_track_order_some_ne_prompt id e ho hid)
  · rintro (ho | ho) <;> simp only [handle_track_order, ho] <;> rfl
  · intro id ho hid
    rw [handle_track_order_some id e ho hid]
    cases hl : List.lookup id MOCK_ORDERS with
    | none => rfl
    | some st =>
      rcases order_lookup_values _ _ hl with h | h | h <;> subst h <;> rfl

/-- Witness for C7's amended theorem: a present id found in the table, and
a missing id giving the prompt. -/
theorem handle_track_order_lookup_witness :
    handle_track_order ⟨none, some "5678"⟩ =
      "Your order 5678 status: Out for delivery. Expected today." ∧
    handle_track_order ⟨none, none⟩ =
      "Please provide your order ID to track your order." := by
  constructor
  · have h := (handle_track_order_lookup ⟨none, some "5678"⟩).2.1 "5678" rfl (by decide)
    rw [h]
    decide
  · exact (handle_track_order_lookup ⟨none, none⟩).1.mpr (Or.inl rfl)

/-- C8: when no rule matches (no track+order pair, no FAQ keyword, no
greeting substring in the lowercased message), the pipeline's reply is the
one fixed fallback string, and the fallback handler's output does not
depend on the message. -/
theorem fallback_fixed_reply (m : String)
    (hno : ¬(pyIn "track" (pylower m) ∧ pyIn "order" (pylower m)))
    (hkw : ∀ kw ∈ faq_keywords, ¬ pyIn kw (pylower m))
    (hg : ∀ w ∈ (["hi", "hello", "hey"] : List String), ¬ pyIn w (pylower m)) :
    generate_bot_response m =
      "I'm not entirely sure about that yet 🤔, but I'll note this question for improvement. Meanwhile, could you rephrase or ask about orders, returns, or account support?" ∧
    ∀ m2 : String, handle_ai_fallback m = handle_ai_fallback m2 := by
  have hfn : faq_keywords.find? (fun kw => decide (pyIn kw (pylower m))) = none := by
    rw [List.find?_eq_none]
    intro x hx
    simpa using hkw x hx
  have hany : (["hi", "hello", "hey"].any (fun word => decide (pyIn word (pylower m)))) = false := by
    rw [List.any_eq_false]
    intro x hx
    simpa using hg x hx
  have hd := detect_intent_unknown m hno hfn hany
  exact ⟨by rw [gbr_unknown m _ hd]; rfl, fun m2 => rfl⟩

/-- Witness for C8 at the spec's scenario input. -/
theorem fallback_fixed_reply_witness :
    generate_bot_response "asdlkj random text" =
      "I'm not entirely sure about that yet 🤔, but I'll note this question for improvement. Meanwhile, could you rephrase or ask about orders, returns, or account support?" :=
  (fallback_fixed_reply "asdlkj random text" (by decide) (by decide) (by decide)).1

/-- C9: a request whose message is empty or whitespace-only gets the fixed
"please type a message" prompt from the `/chat` route, and the pre-check
lives in the route: whatever core pipeline the route guards, that core is
never consulted on a blank message. -/
theorem chat_blank_precheck (m : String) (h : pystrip m = "") :
    chat m = "Please type a message so I can help you." ∧
    ∀ core : String → String, chatWith core m = "Please type a message so I can help you." := by
  have hall : ∀ core : String → String,
      chatWith core m = "Please type a message so I can help you." := by
    intro core
    simp only [chatWith]
    rw [if_pos h]
  exact ⟨hall generate_bot_response, hall⟩

/-- Witness for C9 on a whitespace-only message, also with a core that
would echo the message if it were consulted. -/
theorem chat_blank_precheck_witness :
    chat "   " = "Please type a message so I can help you." ∧
    chatWith (fun s => s) "   " = "Please type a message so I can help you." :=
  ⟨(chat_blank_precheck "   " (by decide)).1, (chat_blank_precheck "   " (by decide)).2 _⟩

/-- C10: every message classified as `faq` gets one of the four stored FAQ
table values as its reply, never the "I'm sorry, I don't have information
about that yet." message: the handler's missing-key branch is unreachable
on detector-produced entity sets. -/
theorem faq_reply_from_table (m : String) (hfaq : (detect_intent m).1 = "faq") :
    (generate_bot_response m = "Our customer support is available 24/7." ∨
     generate_bot_response m = "You can return any product within 30 days of delivery." ∨
     generate_bot_response m = "To reset your password, go to Settings > Account > Reset Password." ∨
     generate_bot_response m = "You can contact us at support@example.com or call +1-234-567-890.") ∧
    generate_bot_response m ≠ "I'm sorry, I don't have information about that yet." := by
  rcases detect_intent_shape m with ⟨hd, -⟩ | ⟨kw, hd, hmem⟩ | hd | hd
  · rw [hd] at hfaq
    simp at hfaq
  · rw [gbr_faq m _ hd]
    simp only [faq_keywords] at hmem
    fin_cases hmem <;> decide
  · rw [hd] at hfaq
    simp at hfaq
  · rw [hd] at hfaq
    simp at hfaq

/-- Witness for C10 at a message the detector classifies as FAQ. -/
theorem faq_reply_from_table_witness :
    (generate_bot_response "please reset password" = "Our customer support is available 24/7." ∨
     generate_bot_response "please reset password" =
       "You can return any product within 30 days of delivery." ∨
     generate_bot_response "please reset password" =
       "To reset your password, go to Settings > Account > Reset Password." ∨
     generate_bot_response "please reset password" =
       "You can contact us at support@example.com or call +1-234-567-890.") ∧
    generate_bot_response "please reset password" ≠
      "I'm sorry, I don't have information about that yet." :=
  faq_reply_from_table "please reset password" (by decide)
